import Mathlib

/- Shallow embedding of lumi.py: the VCGT curve generator (generate_vcgt),
   the brightness clamp of Parser.parse, and the profile-lifecycle flow of
   ProfileMgr and main. The external Colord service and the filesystem are
   modelled as an oracle environment, and every service or filesystem call
   main performs is recorded in an event trace. -/

namespace Lumi

/-- Marker prepended to the names of profiles generated by the tool
(line 13 of lumi.py). -/
def PROFILE_PREFIX : String := "lumi-"

/-- Python substring membership on lists of characters: the needle occurs
contiguously somewhere in the haystack. -/
def listContainsSub (needle hay : List Char) : Bool :=
  match hay with
  | [] => needle.isEmpty
  | c :: tail => needle.isPrefixOf (c :: tail) || listContainsSub needle tail

/-- Python string containment, as in PROFILE_PREFIX in base_profile_info
(line 169 of lumi.py): substring test. -/
def pyIn (needle hay : String) : Bool := listContainsSub needle.data hay.data

/-- A colord profile as seen by lumi: an optional backing filename and an
opaque id. -/
structure Profile where
  filename : Option String
  id : String
  deriving DecidableEq

/-- Events recording the calls main makes against the colord service and the
filesystem. Read-only connect and enumeration calls at the start are traced;
per-profile connect_sync calls are read-only and not traced. -/
inductive Event where
  | connect | getDevices | setEnabled | getProfiles | findStandard
  | attachStandard | loadIcc | addMetadata | setVcgt | saveTmp
  | importProfile | removeTmp | attachProfile | setDefault
  | retireCall | removeBaseFile
  deriving DecidableEq

/-- Ways a modelled run can terminate abnormally. displayNotFound is the one
deliberate exit in the source (line 85); the others stand for uncaught
Python exceptions (IndexError from negative indexing past the front,
AttributeError from the None dereference at line 161, an exception raised by
import_profile_sync, FileNotFoundError from os.remove). -/
inductive RunError where
  | displayNotFound
  | indexError
  | attributeError
  | importError
  | fileNotFound
  deriving DecidableEq

/-- True for the terminations the source performs deliberately with its own
message, false for uncaught exceptions. -/
def RunError.definedFailure : RunError → Bool
  | .displayNotFound => true
  | _ => false

/-- Which traced events mutate device, profile-store or filesystem state.
Enumeration, profile reads and the in-memory edits of the cloned icc data
are not mutations of shared state; retireCall is only the entry into
remove_profile, the actual deletion is removeBaseFile. -/
def Event.mutating : Event → Bool
  | .setEnabled => true
  | .attachStandard => true
  | .saveTmp => true
  | .importProfile => true
  | .removeTmp => true
  | .attachProfile => true
  | .setDefault => true
  | .removeBaseFile => true
  | _ => false

/-- Result of a modelled run: the Python outcome, the trace of service and
filesystem calls, and the final list of filesystem paths. -/
structure RunResult where
  result : Except RunError Unit
  trace : List Event
  fs : List String

/-- Python list indexing devices[i] with an int index: nonnegative indices
count from the front, negative indices from the end, anything out of range
raises IndexError. Returns the resolved nonnegative position. -/
def pyIndex (n : Nat) (i : Int) : Option Nat :=
  if 0 ≤ i then
    if i < (n : Int) then some i.toNat else none
  else
    if 0 ≤ (n : Int) + i then some ((n : Int) + i).toNat else none

/-- ProfileMgr.__init__ up to device selection (lines 79-87 of lumi.py):
exits with the display-not-found message when the index is at least the
device count, otherwise resolves the index Python-style; a negative index
below minus the count raises IndexError. -/
def profileMgrInit (display : Int) (deviceCount : Nat) : Except RunError Nat :=
  if display ≥ (deviceCount : Int) then
    .error .displayNotFound
  else
    match pyIndex deviceCount display with
    | some idx => .ok idx
    | none => .error .indexError

/-- os.remove: deletes the path when present, raises FileNotFoundError when
absent. -/
def os_remove (path : String) (fs : List String) : Except RunError (List String) :=
  if fs.contains path then .ok (fs.filter (fun p => ! (p == path)))
  else .error .fileNotFound

/-- ProfileMgr.remove_profile (lines 111-113 of lumi.py): no-op when the
profile has a falsy (missing or empty) filename, otherwise os.remove of that
filename. Returns the new filesystem and the deletion events performed. -/
def remove_profile (profile : Profile) (fs : List String) :
    Except RunError (List String × List Event) :=
  match profile.filename with
  | none => .ok (fs, [])
  | some f =>
    if f.isEmpty then .ok (fs, [])
    else
      match os_remove f fs with
      | .ok fs2 => .ok (fs2, [Event.removeBaseFile])
      | .error e => .error e

/-- ProfileMgr.new_profile_with_name (lines 118-133 of lumi.py): save the
mutated icc data to tmpdir/new_name, import it (outcome given by the
importOk oracle) with removal of the temporary file in a finally clause,
then attach the new profile with a hard relation. The finally-removal always
succeeds because the file was just saved, so it is the unconditional filter
on both paths. -/
def new_profile_with_name (fs : List String) (tmpdir new_name : String)
    (importOk : Bool) : RunResult :=
  let tmp_path := tmpdir ++ "/" ++ new_name
  let fsSaved := tmp_path :: fs
  let fsCleaned := fsSaved.filter (fun p => ! (p == tmp_path))
  if importOk then
    ⟨.ok (), [.saveTmp, .importProfile, .removeTmp, .attachProfile], fsCleaned⟩
  else
    ⟨.error .importError, [.saveTmp, .removeTmp], fsCleaned⟩

/-- Oracle environment for one run: the configured display index, the
enabled flags of the enumerated display devices, the selected device's
profile list (most relevant first), the result of looking up the standard
sRGB profile, whether import_profile_sync succeeds, the generated uuid
string, the filesystem contents, and the system temporary directory. -/
structure Env where
  display : Int
  devices : List Bool
  profiles : List Profile
  sRGB : Option Profile
  importOk : Bool
  uniqueId : String
  fs : List String
  tmpdir : String

/-- Line 161 of lumi.py: base_profile.get_filename() or
base_profile.get_id(). Python or takes the id exactly when the filename is
missing or empty. -/
def base_profile_info (p : Profile) : String :=
  match p.filename with
  | some f => if f.isEmpty then p.id else f
  | none => p.id

/-- Modelled from the spec words, for comparison with the code: a profile is
generated when the prefix appears in the filename or in the id. -/
def spec_generated_decision (p : Profile) : Bool :=
  (match p.filename with
   | some f => pyIn PROFILE_PREFIX f
   | none => false) || pyIn PROFILE_PREFIX p.id

/-- Lines 169-170 of lumi.py: when the generated prefix occurs in the base
profile info string, call remove_profile on the base profile; its exception,
if any, propagates. Returns the outcome, the events performed and the new
filesystem. -/
def retire_step (base : Profile) (fs : List String) :
    Except RunError Unit × List Event × List String :=
  if pyIn PROFILE_PREFIX (base_profile_info base) then
    match remove_profile base fs with
    | .ok (fs2, evs) => (.ok (), Event.retireCall :: evs, fs2)
    | .error e => (.error e, [Event.retireCall], fs)
  else (.ok (), [], fs)

/-- Lines 163-170 of lumi.py after the base profile is resolved: clone the
icc data, tag it, embed the vcgt, install the new profile via
new_profile_with_name (propagating its import failure), make it default,
then run the conditional retire step. tr is the trace accumulated so far. -/
def run_after_base (env : Env) (tr : List Event) (base : Profile) : RunResult :=
  let tr2 := tr ++ [Event.loadIcc, Event.addMetadata, Event.setVcgt]
  let np := new_profile_with_name env.fs env.tmpdir
    ( PROFILE_PREFIX ++ env.uniqueId) env.importOk
  match np.result with
  | .error e => ⟨.error e, tr2 ++ np.trace, np.fs⟩
  | .ok _ =>
    let r := retire_step base np.fs
    ⟨r.1, tr2 ++ np.trace ++ [Event.setDefault] ++ r.2.1, r.2.2⟩

/-- The main flow of lumi.py (lines 154-170) over the oracle environment:
ProfileMgr construction (with the enable side effect when the device has
color management disabled), base profile resolution falling back to the
standard sRGB profile, then install, set default and conditional retirement.
When neither a current profile nor the sRGB profile exists, the attribute
access on None at line 161 raises. -/
def mainRun (env : Env) : RunResult :=
  match profileMgrInit env.display env.devices.length with
  | .error e => ⟨.error e, [Event.connect, Event.getDevices], env.fs⟩
  | .ok idx =>
    let enabled := env.devices.getD idx true
    let tr1 := [Event.connect, Event.getDevices] ++
      (if enabled then [] else [Event.setEnabled])
    let tr2 := tr1 ++ [Event.getProfiles]
    match env.profiles with
    | base :: _ => run_after_base env tr2 base
    | [] =>
      let tr3 := tr2 ++ [Event.findStandard]
      match env.sRGB with
      | none => ⟨.error .attributeError, tr3, env.fs⟩
      | some p => run_after_base env (tr3 ++ [Event.attachStandard]) p

/-- generate_vcgt (lines 16-32 of lumi.py): 512 samples; sample i scales the
blackbody white point by brightness times (i / (samples - 1)) raised to
1/gamma. The external Colord blackbody conversion is abstracted as the
blackbody argument. -/
noncomputable def generate_vcgt (blackbody : ℝ → ℝ × ℝ × ℝ)
    (gamma temperature brightness : ℝ) : List (ℝ × ℝ × ℝ) :=
  let samples : ℕ := 512
  let gamma_factor : ℝ := 1 / gamma
  let colorbody := blackbody temperature
  (List.range samples).map (fun (i : ℕ) =>
    let coeff : ℝ := ((i : ℝ) / ((samples : ℝ) - 1)) ^ gamma_factor
    (brightness * coeff * colorbody.1,
     brightness * coeff * colorbody.2.1,
     brightness * coeff * colorbody.2.2))

/-- Parser.parse brightness handling (line 74 of lumi.py):
max(min(float(brightness), 1), 0). -/
noncomputable def parse_brightness (b : ℝ) : ℝ := max (min b 1) 0

theorem generate_vcgt_length (bb : ℝ → ℝ × ℝ × ℝ) (gamma t b : ℝ) :
    (generate_vcgt bb gamma t b).length = 512 := by
  simp only [generate_vcgt, List.length_map, List.length_range]

theorem generate_vcgt_getD (bb : ℝ → ℝ × ℝ × ℝ) (gamma t b : ℝ) (i : ℕ)
    (h : i < 512) (d : ℝ × ℝ × ℝ) :
    (generate_vcgt bb gamma t b).getD i d =
      (b * ((i : ℝ) / 511) ^ (1 / gamma) * (bb t).1,
       b * ((i : ℝ) / 511) ^ (1 / gamma) * (bb t).2.1,
       b * ((i : ℝ) / 511) ^ (1 / gamma) * (bb t).2.2) := by
  rw [List.getD_eq_getElem?_getD]
  simp only [generate_vcgt]
  rw [List.getElem?_map, List.getElem?_range h]
  simp only [Option.map_some', Option.getD_some]
  norm_num

/-- C1: for gamma > 0, white point components in [0,1] and brightness in
[0,1], generate_vcgt returns exactly 512 samples, sample i equals
brightness times (i/511)^(1/gamma) times the white point componentwise,
sample 0 is (0,0,0), and sample 511 is brightness times the white point,
for every such gamma. -/
theorem vcgt_formula_and_endpoints (bb : ℝ → ℝ × ℝ × ℝ) (gamma t b : ℝ)
    (hg : 0 < gamma)
    (hw1 : 0 ≤ (bb t).1 ∧ (bb t).1 ≤ 1)
    (hw2 : 0 ≤ (bb t).2.1 ∧ (bb t).2.1 ≤ 1)
    (hw3 : 0 ≤ (bb t).2.2 ∧ (bb t).2.2 ≤ 1)
    (hb : 0 ≤ b ∧ b ≤ 1) :
    (generate_vcgt bb gamma t b).length = 512 ∧
    (∀ i, i < 512 → (generate_vcgt bb gamma t b).getD i (0, 0, 0) =
      (b * ((i : ℝ) / 511) ^ (1 / gamma) * (bb t).1,
       b * ((i : ℝ) / 511) ^ (1 / gamma) * (bb t).2.1,
       b * ((i : ℝ) / 511) ^ (1 / gamma) * (bb t).2.2)) ∧
    (generate_vcgt bb gamma t b).getD 0 (0, 0, 0) = (0, 0, 0) ∧
    (generate_vcgt bb gamma t b).getD 511 (0, 0, 0) =
      (b * (bb t).1, b * (bb t).2.1, b * (bb t).2.2) := by
  refine ⟨generate_vcgt_length bb gamma t b,
    fun i hi => generate_vcgt_getD bb gamma t b i hi _, ?_, ?_⟩
  · rw [generate_vcgt_getD bb gamma t b 0 (by norm_num) _]
    rw [show ((0 : ℕ) : ℝ) / 511 = 0 by norm_num,
      Real.zero_rpow (one_div_ne_zero hg.ne.symm)]
    norm_num
  · rw [generate_vcgt_getD bb gamma t b 511 (by norm_num) _]
    rw [show ((511 : ℕ) : ℝ) / 511 = 1 by norm_num, Real.one_rpow]
    norm_num

theorem vcgt_formula_and_endpoints_witness :
    (generate_vcgt (fun _ => ((1 : ℝ), 1, 1)) 1 6500 1).getD 0 (0, 0, 0) =
      (0, 0, 0) :=
  (vcgt_formula_and_endpoints (fun _ => ((1 : ℝ), 1, 1)) 1 6500 1
    (by norm_num) (by norm_num) (by norm_num) (by norm_num)
    (by norm_num)).2.2.1

/-- C2: for gamma > 0, white point components nonnegative and brightness in
[0,1], each of the three channel sequences of the 512-sample curve is
non-decreasing in the sample index. -/
theorem vcgt_channels_monotone (bb : ℝ → ℝ × ℝ × ℝ) (gamma t b : ℝ)
    (hg : 0 < gamma)
    (hw1 : 0 ≤ (bb t).1) (hw2 : 0 ≤ (bb t).2.1) (hw3 : 0 ≤ (bb t).2.2)
    (hb0 : 0 ≤ b) (hb1 : b ≤ 1) (i j : ℕ) (hij : i ≤ j) (hj : j < 512) :
    ((generate_vcgt bb gamma t b).getD i (0, 0, 0)).1 ≤
      ((generate_vcgt bb gamma t b).getD j (0, 0, 0)).1 ∧
    ((generate_vcgt bb gamma t b).getD i (0, 0, 0)).2.1 ≤
      ((generate_vcgt bb gamma t b).getD j (0, 0, 0)).2.1 ∧
    ((generate_vcgt bb gamma t b).getD i (0, 0, 0)).2.2 ≤
      ((generate_vcgt bb gamma t b).getD j (0, 0, 0)).2.2 := by
  have hi : i < 512 := lt_of_le_of_lt hij hj
  rw [generate_vcgt_getD bb gamma t b i hi _, generate_vcgt_getD bb gamma t b j hj _]
  have hcoeff : ((i : ℝ) / 511) ^ (1 / gamma) ≤ ((j : ℝ) / 511) ^ (1 / gamma) := by
    refine Real.rpow_le_rpow (by positivity) ?_ (by positivity)
    have : (i : ℝ) ≤ (j : ℝ) := by exact_mod_cast hij
    exact div_le_div_of_nonneg_right this (by norm_num)
  refine ⟨?_, ?_, ?_⟩ <;>
    exact mul_le_mul_of_nonneg_right
      (mul_le_mul_of_nonneg_left hcoeff hb0) (by assumption)

theorem vcgt_channels_monotone_witness :
    ((generate_vcgt (fun _ => ((1 : ℝ), 1, 1)) 1 6500 1).getD 0 (0, 0, 0)).1 ≤
      ((generate_vcgt (fun _ => ((1 : ℝ), 1, 1)) 1 6500 1).getD 511 (0, 0, 0)).1 :=
  (vcgt_channels_monotone (fun _ => ((1 : ℝ), 1, 1)) 1 6500 1
    (by norm_num) (by norm_num) (by norm_num) (by norm_num)
    (by norm_num) (by norm_num) 0 511 (by norm_num) (by norm_num)).1

/-- C8: the parsed brightness lies in [0,1]: inputs above 1 become 1, inputs
below 0 become 0, and in-range inputs pass through unchanged; the clamp is
applied once at parse time. -/
theorem brightness_clamped (b : ℝ) :
    0 ≤ parse_brightness b ∧ parse_brightness b ≤ 1 ∧
    (1 < b → parse_brightness b = 1) ∧ (b < 0 → parse_brightness b = 0) ∧
    (0 ≤ b → b ≤ 1 → parse_brightness b = b) := by
  unfold parse_brightness
  refine ⟨le_max_right _ _, max_le (min_le_right _ _) zero_le_one, ?_, ?_, ?_⟩
  · intro h
    rw [min_eq_right h.le, max_eq_left zero_le_one]
  · intro h
    rw [min_eq_left (h.le.trans zero_le_one), max_eq_right h.le]
  · intro h0 h1
    rw [min_eq_left h1, max_eq_left h0]

theorem brightness_clamped_witness : parse_brightness 2 = 1 :=
  (brightness_clamped 2).2.2.1 (by norm_num)

/-- C3: when the configured display index is at least the number of
enumerated display devices, the run terminates with the display-not-found
exit, the trace consists only of the connect and enumeration calls, and no
mutating event has occurred: no profile is created and no device or profile
state is modified beyond enumeration. -/
theorem display_not_found_no_mutation (env : Env)
    (h : env.display ≥ (env.devices.length : Int)) :
    (mainRun env).result = .error .displayNotFound ∧
    (mainRun env).trace = [Event.connect, Event.getDevices] ∧
    ∀ e ∈ (mainRun env).trace, e.mutating = false := by
  have hinit : profileMgrInit env.display env.devices.length =
      .error .displayNotFound := by
    simp [profileMgrInit, h]
  refine ⟨?_, ?_, ?_⟩ <;> simp [mainRun, hinit, Event.mutating]

theorem display_not_found_no_mutation_witness :
    ((0 : Int) ≥ ((([] : List Bool).length : Int))) ∧
    (mainRun ⟨0, [], [], none, true, "u", [], "tmp"⟩).result =
      Except.error RunError.displayNotFound :=
  ⟨by decide,
   (display_not_found_no_mutation ⟨0, [], [], none, true, "u", [], "tmp"⟩
     (by decide)).1⟩

/-- C4: whatever the outcome of the import step, the temporary file written
to the temporary directory is removed before new_profile_with_name returns
or propagates the import error: the removal is traced and the path is never
present in the final filesystem. -/
theorem temp_profile_file_always_removed (fs : List String)
    (tmpdir new_name : String) (importOk : Bool) :
    (tmpdir ++ "/" ++ new_name) ∉
      (new_profile_with_name fs tmpdir new_name importOk).fs ∧
    Event.removeTmp ∈ (new_profile_with_name fs tmpdir new_name importOk).trace := by
  cases importOk <;> simp [new_profile_with_name, List.mem_filter]

/-- C10: the device-not-found guard rejects only indices at or above the
device count; a negative display index whose absolute value is at most the
device count passes the guard and selects the device counted from the end
of the device list, Python style. -/
theorem negative_index_selects_from_end (display : Int) (deviceCount : Nat)
    (hneg : display < 0) (habs : display.natAbs ≤ deviceCount) :
    profileMgrInit display deviceCount = .ok (deviceCount - display.natAbs) := by
  have h1 : ¬ display ≥ (deviceCount : Int) := by omega
  have h2 : ¬ 0 ≤ display := by omega
  have h3 : 0 ≤ (deviceCount : Int) + display := by omega
  have h4 : ((deviceCount : Int) + display).toNat = deviceCount - display.natAbs := by
    omega
  simp [profileMgrInit, pyIndex, h1, h2, h3, h4]

theorem negative_index_selects_from_end_witness :
    profileMgrInit (-1) 1 = Except.ok (1 - (-1 : Int).natAbs) :=
  negative_index_selects_from_end (-1) 1 (by decide) (by decide)

/-- C5 counterexample: with a selected device whose profile list is empty
and no standard sRGB profile available, the run terminates with the
uncaught attribute error raised by the None dereference at line 161, which
is not a deliberate, defined failure of the source; the code raises no
defined no-base-profile-available error. -/
theorem no_base_profile_crash_cex :
    (mainRun ⟨0, [true], [], none, true, "u", [], "tmp"⟩).result =
      Except.error RunError.attributeError ∧
    RunError.definedFailure RunError.attributeError = false :=
  ⟨rfl, rfl⟩

/-- C5 amended: if a device is selected, its profile list is empty and the
standard sRGB profile cannot be found, the run terminates fatally before
creating or installing any profile, but via the uncaught attribute error on
the missing base profile rather than a defined no-base-profile-available
error; the only possible mutating event up to that point is the enable side
effect of initialization. -/
theorem no_base_profile_attribute_error (env : Env) (idx : Nat)
    (hinit : profileMgrInit env.display env.devices.length = .ok idx)
    (hp : env.profiles = []) (hs : env.sRGB = none) :
    (mainRun env).result = .error .attributeError ∧
    ∀ e ∈ (mainRun env).trace, e.mutating = true → e = Event.setEnabled := by
  cases henb : env.devices[idx]?.getD true
  case false =>
    refine ⟨by simp [mainRun, hinit, hp, hs, henb], ?_⟩
    intro e he hm
    simp [mainRun, hinit, hp, hs, henb] at he
    rcases he with rfl | rfl | rfl | rfl | rfl <;> simp_all [Event.mutating]
  case true =>
    refine ⟨by simp [mainRun, hinit, hp, hs, henb], ?_⟩
    intro e he hm
    simp [mainRun, hinit, hp, hs, henb] at he
    rcases he with rfl | rfl | rfl | rfl <;> simp_all [Event.mutating]

theorem no_base_profile_attribute_error_witness :
    (mainRun ⟨0, [true], [], none, true, "u", [], "tmp"⟩).result =
      Except.error RunError.attributeError :=
  (no_base_profile_attribute_error ⟨0, [true], [], none, true, "u", [], "tmp"⟩
    0 rfl rfl rfl).1

theorem remove_profile_events (p : Profile) (fs fs2 : List String)
    (evs : List Event) (h : remove_profile p fs = .ok (fs2, evs)) :
    evs = [] ∨ evs = [Event.removeBaseFile] := by
  unfold remove_profile at h
  split at h
  · simp only [Except.ok.injEq, Prod.mk.injEq] at h
    exact Or.inl h.2.symm
  · split at h
    · simp only [Except.ok.injEq, Prod.mk.injEq] at h
      exact Or.inl h.2.symm
    · split at h
      · simp only [Except.ok.injEq, Prod.mk.injEq] at h
        exact Or.inr h.2.symm
      · simp at h

theorem retire_step_spec (base : Profile) (fs : List String) :
    (retire_step base fs).2.1 = [] ∨
    (retire_step base fs).2.1 = [Event.retireCall] ∨
    (retire_step base fs).2.1 = [Event.retireCall, Event.removeBaseFile] := by
  unfold retire_step
  split
  · split
    · next fs2 evs heq =>
        rcases remove_profile_events base fs fs2 evs heq with rfl | rfl <;> simp
    · simp
  · simp

theorem retire_step_removeBaseFile (base : Profile) (fs : List String)
    (h : Event.removeBaseFile ∈ (retire_step base fs).2.1) :
    (retire_step base fs).2.1 = [Event.retireCall, Event.removeBaseFile] := by
  rcases retire_step_spec base fs with h1 | h1 | h1
  · rw [h1] at h
    simp at h
  · rw [h1] at h
    simp at h
  · exact h1

theorem retire_step_retireCall (base : Profile) (fs : List String) :
    Event.retireCall ∈ (retire_step base fs).2.1 ↔
      pyIn PROFILE_PREFIX (base_profile_info base) = true := by
  unfold retire_step
  split
  · next hd => split <;> simp [hd]
  · next hd => simp at hd; simp [hd]

theorem retire_step_error (base : Profile) (fs : List String) (e : RunError)
    (h : (retire_step base fs).1 = .error e) : e = .fileNotFound := by
  unfold retire_step at h
  split at h
  · split at h
    · simp at h
    · next e2 heq =>
        simp only at h
        unfold remove_profile at heq
        split at heq
        · simp at heq
        · split at heq
          · simp at heq
          · split at heq
            · simp at heq
            · next herr =>
                unfold os_remove at herr
                split at herr
                · simp at herr
                · injection heq with h3
                  injection herr with h4
                  injection h with h5
                  rw [← h5, ← h3, ← h4]
  · simp at h

theorem run_after_base_fileNotFound (env : Env) (tr : List Event)
    (base : Profile)
    (h : (run_after_base env tr base).result = .error .fileNotFound) :
    Event.setDefault ∈ (run_after_base env tr base).trace := by
  cases himp : env.importOk
  · simp [run_after_base, new_profile_with_name, himp] at h
  · simp [run_after_base, new_profile_with_name, himp]

theorem profileMgrInit_error (display : Int) (n : Nat) (e : RunError)
    (h : profileMgrInit display n = .error e) :
    e = .displayNotFound ∨ e = .indexError := by
  unfold profileMgrInit at h
  split at h
  · injection h with h2
    exact Or.inl h2.symm
  · split at h
    · simp at h
    · injection h with h2
      exact Or.inr h2.symm

theorem mainRun_fileNotFound (env : Env)
    (h : (mainRun env).result = .error .fileNotFound) :
    Event.setDefault ∈ (mainRun env).trace := by
  cases hinit : profileMgrInit env.display env.devices.length
  case error e =>
    rcases profileMgrInit_error _ _ _ hinit with rfl | rfl <;>
      simp [mainRun, hinit] at h
  case ok idx =>
    cases hp : env.profiles
    case cons base rest =>
      simp only [mainRun, hinit, hp] at h ⊢
      exact run_after_base_fileNotFound env _ base h
    case nil =>
      cases hs : env.sRGB
      case none => simp [mainRun, hinit, hp, hs] at h
      case some p =>
        simp only [mainRun, hinit, hp, hs] at h ⊢
        exact run_after_base_fileNotFound env _ p h

/-- C7 counterexample: in a run whose base profile carries the generated
prefix and a filename whose file is absent, os.remove raises and the error
propagates: the run result is the file-not-found failure even though the
set-default step had already succeeded, so a successful swap is reported as
failed because of the cleanup step. -/
theorem cleanup_failure_fatal_cex :
    (mainRun ⟨0, [true], [⟨some "lumi-old", "i"⟩], none, true, "u", [],
      "tmp"⟩).result = Except.error RunError.fileNotFound ∧
    Event.setDefault ∈ (mainRun ⟨0, [true], [⟨some "lumi-old", "i"⟩], none,
      true, "u", [], "tmp"⟩).trace :=
  ⟨rfl, by decide⟩

/-- C7 amended: remove_profile no-ops silently when the profile has a
missing or empty filename; but when a filename is present and the file is
absent the removal raises file-not-found, and in a full run that error
propagates as the run result — a failure report — although it can only
arise after the set-default step has already been traced. -/
theorem remove_profile_noop_and_failure_propagates :
    (∀ id fs, remove_profile ⟨none, id⟩ fs = .ok (fs, [])) ∧
    (∀ id fs, remove_profile ⟨some "", id⟩ fs = .ok (fs, [])) ∧
    (∀ id f fs, f.isEmpty = false → fs.contains f = false →
      remove_profile ⟨some f, id⟩ fs = .error .fileNotFound) ∧
    (∀ env, (mainRun env).result = .error .fileNotFound →
      Event.setDefault ∈ (mainRun env).trace) := by
  refine ⟨fun id fs => rfl, fun id fs => rfl, ?_, mainRun_fileNotFound⟩
  intro id f fs h1 h2
  simp only [Bool.eq_false_iff] at h2
  simp at h2
  simp [remove_profile, os_remove, h1, h2]

theorem remove_profile_noop_and_failure_propagates_witness :
    remove_profile ⟨some "f", "i"⟩ [] = Except.error RunError.fileNotFound :=
  remove_profile_noop_and_failure_propagates.2.2.1 "i" "f" [] rfl rfl

theorem run_after_base_retireCall_iff (env : Env) (tr : List Event)
    (base : Profile) (himp : env.importOk = true)
    (htr : Event.retireCall ∉ tr) :
    (Event.retireCall ∈ (run_after_base env tr base).trace ↔
      pyIn PROFILE_PREFIX (base_profile_info base) = true) := by
  simp [run_after_base, new_profile_with_name, himp, htr, retire_step_retireCall]

/-- C6 counterexample: a base profile whose non-empty filename lacks the
generated prefix is not retired even though its id contains the prefix: the
run performs no retire call, while the spec-worded decision (prefix present
in the filename or in the id) classifies the profile as generated. -/
theorem generated_detection_cex :
    spec_generated_decision ⟨some "base.icc", "lumi-123"⟩ = true ∧
    Event.retireCall ∉ (mainRun ⟨0, [true], [⟨some "base.icc", "lumi-123"⟩],
      none, true, "u", ["base.icc"], "tmp"⟩).trace :=
  ⟨rfl, by decide⟩

/-- C6 amended: the retirement decision tests the generated prefix against a
single info string — the filename when it is present and non-empty,
otherwise the id: in a run that installs its new profile, the retire call
happens exactly when the prefix occurs as a substring of that string, so a
profile whose id carries the prefix but whose non-empty filename does not is
left untouched. -/
theorem generated_detection_uses_filename_else_id (env : Env) (idx : Nat)
    (base : Profile) (rest : List Profile)
    (hinit : profileMgrInit env.display env.devices.length = .ok idx)
    (hp : env.profiles = base :: rest) (himp : env.importOk = true) :
    (Event.retireCall ∈ (mainRun env).trace ↔
      pyIn PROFILE_PREFIX (base_profile_info base) = true) := by
  cases henb : env.devices[idx]?.getD true
  · simp only [mainRun, hinit, hp]
    simp [henb]
    exact run_after_base_retireCall_iff env _ base himp (by decide)
  · simp only [mainRun, hinit, hp]
    simp [henb]
    exact run_after_base_retireCall_iff env _ base himp (by decide)

theorem generated_detection_uses_filename_else_id_witness :
    (Event.retireCall ∈ (mainRun ⟨0, [true], [⟨some "lumi-x", "i"⟩], none,
      true, "u", ["lumi-x"], "tmp"⟩).trace ↔
      pyIn PROFILE_PREFIX (base_profile_info ⟨some "lumi-x", "i"⟩) = true) :=
  generated_detection_uses_filename_else_id
    ⟨0, [true], [⟨some "lumi-x", "i"⟩], none, true, "u", ["lumi-x"], "tmp"⟩
    0 ⟨some "lumi-x", "i"⟩ [] rfl rfl rfl

theorem run_after_base_removeBaseFile (env : Env) (tr : List Event)
    (base : Profile)
    (h : Event.removeBaseFile ∈ (run_after_base env tr base).trace)
    (htr : Event.removeBaseFile ∉ tr) :
    (run_after_base env tr base).trace =
      (tr ++ [Event.loadIcc, Event.addMetadata, Event.setVcgt, Event.saveTmp]) ++
      [Event.importProfile, Event.removeTmp, Event.attachProfile,
       Event.setDefault, Event.retireCall, Event.removeBaseFile] := by
  cases himp : env.importOk
  case false =>
    exfalso
    simp [run_after_base, new_profile_with_name, himp] at h
    exact htr h
  case true =>
    simp [run_after_base, new_profile_with_name, himp, htr] at h ⊢
    rw [retire_step_removeBaseFile _ _ h]

/-- C9: whenever a run removes the superseded base profile's file, the trace
decomposes as a prefix containing none of the install events followed by the
import, temp cleanup, attach, set-default, retire call and removal in that
order: the retirement happens strictly after the newly installed profile was
imported, attached and made default, so a generated base profile is never
destroyed while still default. -/
theorem retire_after_set_default (env : Env)
    (h : Event.removeBaseFile ∈ (mainRun env).trace) :
    ∃ pre, (mainRun env).trace =
      pre ++ [Event.importProfile, Event.removeTmp, Event.attachProfile,
              Event.setDefault, Event.retireCall, Event.removeBaseFile] ∧
      Event.importProfile ∉ pre ∧ Event.attachProfile ∉ pre ∧
      Event.setDefault ∉ pre ∧ Event.removeBaseFile ∉ pre := by
  cases hinit : profileMgrInit env.display env.devices.length
  case error e =>
    exfalso
    simp [mainRun, hinit] at h
  case ok idx =>
    cases henb : env.devices[idx]?.getD true <;>
      cases hp : env.profiles
    case false.nil =>
      cases hs : env.sRGB
      case none =>
        exfalso
        simp [mainRun, hinit, hp, hs, henb] at h
      case some p =>
        simp only [mainRun, hinit, hp, hs] at h ⊢
        simp [henb] at h ⊢
        have h2 := run_after_base_removeBaseFile env _ p h (by decide)
        refine ⟨[Event.connect, Event.getDevices, Event.setEnabled,
          Event.getProfiles, Event.findStandard, Event.attachStandard,
          Event.loadIcc, Event.addMetadata, Event.setVcgt, Event.saveTmp],
          ?_, by decide, by decide, by decide, by decide⟩
        simpa using h2
    case false.cons base rest =>
      simp only [mainRun, hinit, hp] at h ⊢
      simp [henb] at h ⊢
      have h2 := run_after_base_removeBaseFile env _ base h (by decide)
      refine ⟨[Event.connect, Event.getDevices, Event.setEnabled,
        Event.getProfiles, Event.loadIcc, Event.addMetadata, Event.setVcgt,
        Event.saveTmp], ?_, by decide, by decide, by decide, by decide⟩
      simpa using h2
    case true.nil =>
      cases hs : env.sRGB
      case none =>
        exfalso
        simp [mainRun, hinit, hp, hs, henb] at h
      case some p =>
        simp only [mainRun, hinit, hp, hs] at h ⊢
        simp [henb] at h ⊢
        have h2 := run_after_base_removeBaseFile env _ p h (by decide)
        refine ⟨[Event.connect, Event.getDevices, Event.getProfiles,
          Event.findStandard, Event.attachStandard, Event.loadIcc,
          Event.addMetadata, Event.setVcgt, Event.saveTmp],
          ?_, by decide, by decide, by decide, by decide⟩
        simpa using h2
    case true.cons base rest =>
      simp only [mainRun, hinit, hp] at h ⊢
      simp [henb] at h ⊢
      have h2 := run_after_base_removeBaseFile env _ base h (by decide)
      refine ⟨[Event.connect, Event.getDevices, Event.getProfiles,
        Event.loadIcc, Event.addMetadata, Event.setVcgt, Event.saveTmp],
        ?_, by decide, by decide, by decide, by decide⟩
      simpa using h2

theorem retire_after_set_default_witness :
    Event.removeBaseFile ∈ (mainRun ⟨0, [true], [⟨some "lumi-old", "i"⟩],
      none, true, "u", ["lumi-old"], "tmp"⟩).trace ∧
    (∃ pre, (mainRun ⟨0, [true], [⟨some "lumi-old", "i"⟩], none, true, "u",
        ["lumi-old"], "tmp"⟩).trace =
      pre ++ [Event.importProfile, Event.removeTmp, Event.attachProfile,
              Event.setDefault, Event.retireCall, Event.removeBaseFile] ∧
      Event.importProfile ∉ pre ∧ Event.attachProfile ∉ pre ∧
      Event.setDefault ∉ pre ∧ Event.removeBaseFile ∉ pre) :=
  ⟨by decide,
   retire_after_set_default
     ⟨0, [true], [⟨some "lumi-old", "i"⟩], none, true, "u", ["lumi-old"],
      "tmp"⟩ (by decide)⟩

end Lumi
